import Mathlib

/-!
Shallow embedding of the NeoVantis AuthService core (NestJS/TypeScript):
the OTP registry (`src/auth/otp.service.ts`), the auth orchestrator
(`src/auth/auth.service.ts`), the user repository layer
(`src/users/users.service.ts`), the `User` entity and the admin service
(`src/admin/admin.service.ts`).

Modelling conventions:
* `Date` values are `Nat` milliseconds; `new Date()` becomes an explicit
  `now : Nat` argument.
* NestJS exceptions become an error type `HttpError` carrying the
  exception class and message; fallible methods return `Except`.
* The in-memory `Map<string, OtpRecord>` becomes an association list with
  JS-`Map` semantics (`storeGet`/`storeSet`/`storeDelete`).
* bcrypt and JWT are modelled as oracle parameters: `compare` for
  `bcrypt.compare`, `decode` for `jwtService.verifyAsync`; email dispatch
  (`notificationService.sendTemplateEmail`) is an oracle `send` that
  reports success or failure, and functions additionally return the list
  of dispatch attempts they made.
-/

deriving instance DecidableEq for Except

namespace AuthService

/-- NestJS exception classes thrown by the service, with their messages. -/
inductive HttpError
  | unauthorized (msg : String)
  | conflict (msg : String)
  | notFound (msg : String)
  | badRequest (msg : String)
  | forbidden (msg : String)
deriving DecidableEq

/-! ## OTP registry (`src/auth/otp.service.ts`) -/

/-- The `type` tag of an `OtpRecord`. -/
inductive OtpType
  | emailVerification
  | passwordReset
deriving DecidableEq

/-- Record type `OtpRecord` from `otp.service.ts`. -/
structure OtpRecord where
  id : String
  email : String
  code : String
  type : OtpType
  expiresAt : Nat
  attempts : Nat
  isUsed : Bool
  createdAt : Nat
deriving DecidableEq

/-- The in-memory `Map<string, OtpRecord>` as an insertion-ordered list. -/
abbrev OtpStore := List (String × OtpRecord)

/-- JS `Map.get`. -/
def storeGet : OtpStore → String → Option OtpRecord
  | [], _ => none
  | p :: rest, key => if p.1 = key then some p.2 else storeGet rest key

/-- JS `Map.set`: replace the entry in place when the key is present,
otherwise append. -/
def storeSet : OtpStore → String → OtpRecord → OtpStore
  | [], key, r => [(key, r)]
  | p :: rest, key, r =>
    if p.1 = key then (key, r) :: rest else p :: storeSet rest key r

/-- JS `Map.delete`. -/
def storeDelete (s : OtpStore) (key : String) : OtpStore :=
  s.filter fun p => p.1 ≠ key

/-- Method `cleanupExpired`: evict every record with `expiresAt < now`. -/
def cleanupExpired (s : OtpStore) (now : Nat) : OtpStore :=
  s.filter fun p => ¬ p.2.expiresAt < now

/-- Successful result of `verifyOtp`. -/
structure OtpVerifyOk where
  email : String
  isValid : Bool
deriving DecidableEq

/-- Method `OtpService.verifyOtp`, returning the outcome together with the
updated store. -/
def verifyOtp (store : OtpStore) (otpId code : String) (ty : OtpType)
    (now : Nat) : Except HttpError OtpVerifyOk × OtpStore :=
  match storeGet store otpId with
  | none => (.error (.notFound "OTP not found or expired"), store)
  | some record =>
    if record.type ≠ ty then
      (.error (.badRequest "Invalid OTP type"), store)
    else if record.isUsed then
      (.error (.badRequest "OTP has already been used"), store)
    else if record.expiresAt < now then
      (.error (.badRequest "OTP has expired"), storeDelete store otpId)
    else if 3 ≤ record.attempts then
      (.error (.badRequest "Maximum verification attempts exceeded"),
        storeDelete store otpId)
    else
      let record1 := { record with attempts := record.attempts + 1 }
      if record1.code ≠ code then
        (.error (.badRequest "Invalid OTP code"), storeSet store otpId record1)
      else
        let record2 := { record1 with isUsed := true }
        (.ok { email := record2.email, isValid := true },
          storeSet store otpId record2)

/-- JS `String.prototype.toLowerCase`, character by character. -/
def strToLower (s : String) : String :=
  ⟨s.data.map Char.toLower⟩

/-- The recipient-name fallback used by the generate methods: the
characters of the email before the first at-sign, the whole string when
there is none (JS split at the at-sign, index 0). -/
def emailLocalPart (email : String) : String :=
  ⟨email.data.takeWhile (· ≠ '@')⟩

/-- Payload of `notificationService.sendTemplateEmail`. -/
structure EmailRequest where
  recipientEmail : String
  templateName : String
  templateData : List (String × String)
  priority : String
deriving DecidableEq

/-- The dispatch payload built by `generateEmailVerificationOtp`. -/
def emailVerificationRequest (email code : String) : EmailRequest :=
  { recipientEmail := email
    templateName := "email-verification"
    templateData :=
      [("recipientName", emailLocalPart email),
       ("verificationCode", code),
       ("expirationTime", "15 minutes")]
    priority := "high" }

/-- The dispatch payload built by `generatePasswordResetOtp`. -/
def passwordResetRequest (email code : String) : EmailRequest :=
  { recipientEmail := email
    templateName := "password-reset"
    templateData :=
      [("recipientName", emailLocalPart email),
       ("resetCode", code),
       ("expirationTime", "10 minutes")]
    priority := "high" }

/-- Successful result of the OTP generation endpoints. -/
structure GenerateResult where
  otpId : String
  message : String
deriving DecidableEq

/-- Method `OtpService.generateEmailVerificationOtp`.  The random `code` and
`otpId` and the clock `now` are explicit arguments; `send` is the
notification-service oracle (`false` = dispatch throws).  Returns the
outcome, the updated store, and the dispatch attempts made. -/
def generateEmailVerificationOtp (store : OtpStore) (email : String)
    (code otpId : String) (now : Nat) (send : EmailRequest → Bool) :
    Except HttpError GenerateResult × OtpStore × List EmailRequest :=
  let otpRecord : OtpRecord :=
    { id := otpId, email := email, code := code, type := .emailVerification
      expiresAt := now + 15 * 60 * 1000, attempts := 0, isUsed := false
      createdAt := now }
  let store1 := cleanupExpired (storeSet store otpId otpRecord) now
  let req := emailVerificationRequest email code
  if send req then
    (.ok { otpId := otpId, message := "Verification code sent to your email" },
      store1, [req])
  else
    (.error (.badRequest "Failed to send verification email. Please try again."),
      storeDelete store1 otpId, [req])

/-- Method `OtpService.generatePasswordResetOtp` (10-minute expiry). -/
def generatePasswordResetOtp (store : OtpStore) (email : String)
    (code otpId : String) (now : Nat) (send : EmailRequest → Bool) :
    Except HttpError GenerateResult × OtpStore × List EmailRequest :=
  let otpRecord : OtpRecord :=
    { id := otpId, email := email, code := code, type := .passwordReset
      expiresAt := now + 10 * 60 * 1000, attempts := 0, isUsed := false
      createdAt := now }
  let store1 := cleanupExpired (storeSet store otpId otpRecord) now
  let req := passwordResetRequest email code
  if send req then
    (.ok { otpId := otpId,
           message := "Password reset code sent to your email" },
      store1, [req])
  else
    (.error (.badRequest "Failed to send password reset email. Please try again."),
      storeDelete store1 otpId, [req])

/-! ## User entity and repository (`src/users/user.entity.ts`,
`src/users/users.service.ts`) -/

/-- The `users` table entity. -/
structure User where
  id : String
  username : String
  email : String
  passwordHash : String
  stepOneComplete : Bool
  fullName : Option String := none
  phoneNumber : Option String := none
  college : Option String := none
  address : Option String := none
  stepTwoComplete : Bool
  isVerified : Bool
  emailVerifiedAt : Option Nat := none
  isActive : Bool
  deletedAt : Option Nat := none
  passwordResetCount : Nat := 0
  lastPasswordReset : Option Nat := none
  createdAt : Nat := 0
  updatedAt : Nat := 0
deriving DecidableEq

/-- The `isSignupComplete` getter on the entity. -/
def User.isSignupComplete (u : User) : Bool :=
  u.stepOneComplete && u.stepTwoComplete

/-- The database of users, in insertion order. -/
abbrev UserDb := List User

/-- Method `UsersService.findByEmail`: case-insensitive, excludes soft-deleted. -/
def findByEmail (db : UserDb) (email : String) : Option User :=
  db.find? fun u => u.email = strToLower email ∧ u.deletedAt = none

/-- Method `UsersService.findByUsername`. -/
def findByUsername (db : UserDb) (username : String) : Option User :=
  db.find? fun u => u.username = strToLower username ∧ u.deletedAt = none

/-- Method `UsersService.findByEmailOrUsername`. -/
def findByEmailOrUsername (db : UserDb) (identifier : String) : Option User :=
  db.find? fun u =>
    (u.email = strToLower identifier ∨ u.username = strToLower identifier) ∧
      u.deletedAt = none

/-- Method `UsersService.findByEmailOrUsernameIncludingDeleted`. -/
def findByEmailOrUsernameIncludingDeleted (db : UserDb) (identifier : String) :
    Option User :=
  db.find? fun u =>
    u.email = strToLower identifier ∨ u.username = strToLower identifier

/-- Method `UsersService.findById`: excludes soft-deleted. -/
def findById (db : UserDb) (id : String) : Option User :=
  db.find? fun u => u.id = id ∧ u.deletedAt = none

/-- Method `UsersService.findByIdIncludingDeleted`. -/
def findByIdIncludingDeleted (db : UserDb) (id : String) : Option User :=
  db.find? fun u => u.id = id

/-- The profile shape produced by `getUserProfile`: every `User` column
except `passwordHash` and `deletedAt`. -/
structure UserProfile where
  id : String
  username : String
  email : String
  stepOneComplete : Bool
  fullName : Option String
  phoneNumber : Option String
  college : Option String
  address : Option String
  stepTwoComplete : Bool
  isVerified : Bool
  emailVerifiedAt : Option Nat
  isActive : Bool
  passwordResetCount : Nat
  lastPasswordReset : Option Nat
  createdAt : Nat
  updatedAt : Nat
deriving DecidableEq

/-- The destructuring `const { passwordHash, deletedAt, ...profile } = user`. -/
def profileOf (u : User) : UserProfile :=
  { id := u.id, username := u.username, email := u.email
    stepOneComplete := u.stepOneComplete, fullName := u.fullName
    phoneNumber := u.phoneNumber, college := u.college, address := u.address
    stepTwoComplete := u.stepTwoComplete, isVerified := u.isVerified
    emailVerifiedAt := u.emailVerifiedAt, isActive := u.isActive
    passwordResetCount := u.passwordResetCount
    lastPasswordReset := u.lastPasswordReset
    createdAt := u.createdAt, updatedAt := u.updatedAt }

/-- Method `UsersService.getUserProfile`. -/
def getUserProfile (db : UserDb) (id : String) : Option UserProfile :=
  (findById db id).map profileOf

/-- The update payload accepted by `UsersService.updateUser`
(`UpdateUserDto` plus the internal `isVerified`/`emailVerifiedAt` fields
used by `verifyEmail`). -/
structure UpdateUserData where
  username : Option String := none
  fullName : Option String := none
  phoneNumber : Option String := none
  college : Option String := none
  address : Option String := none
  isVerified : Option Bool := none
  emailVerifiedAt : Option Nat := none
deriving DecidableEq

/-- The TypeORM update of a single row with the given payload. -/
def applyUpdate (d : UpdateUserData) (u : User) : User :=
  { u with
    username := d.username.getD u.username
    fullName := match d.fullName with | some v => some v | none => u.fullName
    phoneNumber :=
      match d.phoneNumber with | some v => some v | none => u.phoneNumber
    college := match d.college with | some v => some v | none => u.college
    address := match d.address with | some v => some v | none => u.address
    isVerified := d.isVerified.getD u.isVerified
    emailVerifiedAt :=
      match d.emailVerifiedAt with
      | some v => some v
      | none => u.emailVerifiedAt }

/-- Method `UsersService.updateUser`: look up, optional username-conflict check,
update the row, and re-fetch. -/
def updateUser (db : UserDb) (id : String) (d : UpdateUserData) :
    Except HttpError User × UserDb :=
  match findById db id with
  | none => (.error (.notFound "User not found"), db)
  | some user =>
    let conflict :=
      match d.username with
      | some newName =>
        if newName ≠ user.username then (findByUsername db newName).isSome
        else false
      | none => false
    if conflict then (.error (.conflict "Username already taken"), db)
    else
      let db1 := db.map fun u => if u.id = id then applyUpdate d u else u
      match findById db1 id with
      | some u2 => (.ok u2, db1)
      | none => (.error (.notFound "User not found after update"), db1)

/-- Method `UsersService.softDelete`: sets `deletedAt = now` and
`isActive = false`. -/
def softDelete (db : UserDb) (id : String) (now : Nat) :
    Except HttpError Bool × UserDb :=
  match findById db id with
  | none => (.error (.notFound "User not found"), db)
  | some _ =>
    (.ok true,
      db.map fun u =>
        if u.id = id then { u with deletedAt := some now, isActive := false }
        else u)

/-! ## Auth orchestrator (`src/auth/auth.service.ts`) -/

/-- Claims carried by a signed token (`signToken`). -/
structure JwtPayload where
  sub : String
  email : String
  username : String
deriving DecidableEq

/-- Method `AuthService.signToken`: the token is modelled by its claims. -/
def signToken (u : User) : JwtPayload :=
  { sub := u.id, email := u.email, username := u.username }

/-- Successful `signin` response. -/
structure SigninResult where
  access_token : JwtPayload
  user : Option UserProfile
deriving DecidableEq

/-- Method `AuthService.signin`; `compare` is the `bcrypt.compare` oracle. -/
def signin (db : UserDb) (compare : String → String → Bool)
    (identifier password : String) : Except HttpError SigninResult :=
  match findByEmailOrUsername db identifier with
  | none =>
    match findByEmailOrUsernameIncludingDeleted db identifier with
    | some deletedUser =>
      if !deletedUser.isActive then
        .error (.unauthorized
          "Account is deactivated. Contact support for reactivation.")
      else .error (.unauthorized "Invalid credentials")
    | none => .error (.unauthorized "Invalid credentials")
  | some user =>
    if !user.isSignupComplete then
      .error (.unauthorized "Please complete your registration before signing in")
    else if !user.isVerified then
      .error (.unauthorized
        "Please verify your email address before signing in. Check your email for a verification link.")
    else if !user.isActive then
      .error (.unauthorized "Account is deactivated")
    else if !(compare password user.passwordHash) then
      .error (.unauthorized "Invalid credentials")
    else
      .ok { access_token := signToken user
            user := getUserProfile db user.id }

/-- The `verifyToken` response shape. -/
structure VerifyTokenResult where
  valid : Bool
  user : Option UserProfile
deriving DecidableEq

/-- Method `AuthService.verifyToken`; `decode` models `jwtService.verifyAsync`
oracle (`none` = the verification throws). -/
def verifyToken (db : UserDb) (decode : String → Option JwtPayload)
    (token : String) : VerifyTokenResult :=
  match decode token with
  | none => { valid := false, user := none }
  | some payload =>
    match findById db payload.sub with
    | none => { valid := false, user := none }
    | some user =>
      if !user.isActive then { valid := false, user := none }
      else { valid := true, user := getUserProfile db user.id }

/-- Method `AuthService.getUserFromToken`. -/
def getUserFromToken (db : UserDb) (decode : String → Option JwtPayload)
    (token : String) : Option UserProfile :=
  match decode token with
  | none => none
  | some payload => getUserProfile db payload.sub

/-- Method `AuthService.requestEmailVerification`. -/
def requestEmailVerification (db : UserDb) (store : OtpStore) (email : String)
    (code otpId : String) (now : Nat) (send : EmailRequest → Bool) :
    Except HttpError GenerateResult × OtpStore × List EmailRequest :=
  match findByEmail db email with
  | none => (.error (.notFound "User not found"), store, [])
  | some user =>
    if user.isVerified then
      (.error (.badRequest "Email is already verified"), store, [])
    else generateEmailVerificationOtp store email code otpId now send

/-- Method `AuthService.verifyEmail`: consume the OTP, look the user up
by the email of the record, and mark the user verified. -/
def verifyEmail (db : UserDb) (store : OtpStore) (otpId code : String)
    (now : Nat) : Except HttpError String × UserDb × OtpStore :=
  match verifyOtp store otpId code .emailVerification now with
  | (.error e, store1) => (.error e, db, store1)
  | (.ok r, store1) =>
    match findByEmail db r.email with
    | none => (.error (.notFound "User not found"), db, store1)
    | some user =>
      match updateUser db user.id
          { isVerified := some true, emailVerifiedAt := some now } with
      | (.error e, db1) => (.error e, db1, store1)
      | (.ok _, db1) => (.ok "Email verified successfully", db1, store1)

/-- Method `AuthService.forgotPassword`: dummy success when the email has no
account, otherwise generate and dispatch a password-reset OTP. -/
def forgotPassword (db : UserDb) (store : OtpStore) (email : String)
    (code otpId : String) (now : Nat) (send : EmailRequest → Bool) :
    Except HttpError GenerateResult × OtpStore × List EmailRequest :=
  match findByEmail db email with
  | none =>
    (.ok { otpId := "dummy_otp_id"
           message := "If the email exists, a reset code has been sent." },
      store, [])
  | some _ => generatePasswordResetOtp store email code otpId now send

/-! ## Admin service (`src/admin/admin.service.ts`) -/

/-- The `admins` table entity; `role` 0 = super admin, 1 = admin. -/
structure Admin where
  id : String
  username : String
  name : String
  passwordHash : String
  role : Nat
  createdAt : Nat := 0
  updatedAt : Nat := 0
deriving DecidableEq

/-- Method `AdminService.findByUsername` (lower-cases the query). -/
def adminFindByUsername (admins : List Admin) (username : String) :
    Option Admin :=
  admins.find? fun a => a.username = strToLower username

/-- Lookup of an admin row by primary key. -/
def adminFindById (admins : List Admin) (id : String) : Option Admin :=
  admins.find? fun a => a.id = id

/-- Payload type `CreateAdminDto`. -/
structure CreateAdminDto where
  username : String
  password : String
  name : String
  role : Nat
deriving DecidableEq

/-- Method `AdminService.create`: optional super-admin gate, username-conflict
check, then hash and save.  `hash` is the bcrypt oracle and `newId` the
generated primary key. -/
def adminCreate (admins : List Admin) (dto : CreateAdminDto)
    (requestingAdminId : Option String) (hash : String → String)
    (newId : String) : Except HttpError (Admin × List Admin) :=
  let gate : Except HttpError Unit :=
    match requestingAdminId with
    | none => .ok ()
    | some rid =>
      match adminFindById admins rid with
      | none =>
        .error (.forbidden "Only super administrators can create new admins")
      | some requestingAdmin =>
        if requestingAdmin.role ≠ 0 then
          .error (.forbidden "Only super administrators can create new admins")
        else .ok ()
  match gate with
  | .error e => .error e
  | .ok _ =>
    if (adminFindByUsername admins dto.username).isSome then
      .error (.conflict "Username already taken")
    else
      let admin : Admin :=
        { id := newId, username := dto.username, name := dto.name
          passwordHash := hash dto.password, role := dto.role }
      .ok (admin, admins ++ [admin])

/-! ## Store lemmas -/

theorem storeGet_storeSet_self (s : OtpStore) (key : String) (r : OtpRecord) :
    storeGet (storeSet s key r) key = some r := by
  induction s with
  | nil => simp [storeSet, storeGet]
  | cons p rest ih =>
    by_cases h : p.1 = key
    · simp [storeSet, storeGet, h]
    · simp [storeSet, storeGet, h, ih]

theorem storeGet_storeSet_other (s : OtpStore) (key key' : String)
    (r : OtpRecord) (h : key' ≠ key) :
    storeGet (storeSet s key r) key' = storeGet s key' := by
  have hk : ¬ key = key' := fun hk => h hk.symm
  induction s with
  | nil => simp [storeSet, storeGet, hk]
  | cons p rest ih =>
    by_cases hp : p.1 = key
    · rw [storeSet, if_pos hp, storeGet, if_neg hk, storeGet, hp, if_neg hk]
    · rw [storeSet, if_neg hp]
      by_cases hp' : p.1 = key'
      · rw [storeGet, if_pos hp', storeGet, if_pos hp']
      · rw [storeGet, if_neg hp', storeGet, if_neg hp', ih]

theorem storeGet_storeDelete_self (s : OtpStore) (key : String) :
    storeGet (storeDelete s key) key = none := by
  induction s with
  | nil => simp [storeDelete, storeGet]
  | cons p rest ih =>
    by_cases h : p.1 = key
    · simpa [storeDelete, List.filter_cons, storeGet, h] using ih
    · simpa [storeDelete, List.filter_cons, storeGet, h] using ih

theorem storeGet_storeDelete_other (s : OtpStore) (key key' : String)
    (h : key' ≠ key) :
    storeGet (storeDelete s key) key' = storeGet s key' := by
  have hk : ¬ key = key' := fun e => h e.symm
  induction s with
  | nil => simp [storeDelete, storeGet]
  | cons p rest ih =>
    by_cases hp : p.1 = key
    · simpa [storeDelete, List.filter_cons, storeGet, hp, hk] using ih
    · by_cases hp' : p.1 = key'
      · simp [storeDelete, List.filter_cons, storeGet, hp, hp', h]
      · simpa [storeDelete, List.filter_cons, storeGet, hp, hp'] using ih

theorem storeGet_cleanupExpired_of_live (s : OtpStore) (now : Nat)
    (key : String) (r : OtpRecord) (h : storeGet s key = some r)
    (he : ¬ r.expiresAt < now) :
    storeGet (cleanupExpired s now) key = some r := by
  induction s with
  | nil => simp [storeGet] at h
  | cons p rest ih =>
    by_cases hp : p.1 = key
    · rw [storeGet, if_pos hp] at h
      have hpr : p.2 = r := by injection h
      simp [cleanupExpired, List.filter_cons, storeGet, hp, hpr,
        Nat.not_lt.mp he]
    · rw [storeGet, if_neg hp] at h
      by_cases hl : p.2.expiresAt < now
      · simpa [cleanupExpired, List.filter_cons, storeGet, hp,
          Nat.not_le.mpr hl] using ih h
      · simpa [cleanupExpired, List.filter_cons, storeGet, hp,
          Nat.not_lt.mp hl] using ih h

/-! ## `verifyOtp` outcome characterization -/

theorem verifyOtp_notFound (store : OtpStore) (otpId code : String)
    (ty : OtpType) (now : Nat) (h : storeGet store otpId = none) :
    verifyOtp store otpId code ty now =
      (.error (.notFound "OTP not found or expired"), store) := by
  simp [verifyOtp, h]

theorem verifyOtp_wrongType (store : OtpStore) (otpId code : String)
    (ty : OtpType) (now : Nat) (r : OtpRecord)
    (hg : storeGet store otpId = some r) (hty : r.type ≠ ty) :
    verifyOtp store otpId code ty now =
      (.error (.badRequest "Invalid OTP type"), store) := by
  simp [verifyOtp, hg, hty]

theorem verifyOtp_alreadyUsed (store : OtpStore) (otpId code : String)
    (ty : OtpType) (now : Nat) (r : OtpRecord)
    (hg : storeGet store otpId = some r) (hty : r.type = ty)
    (hu : r.isUsed = true) :
    verifyOtp store otpId code ty now =
      (.error (.badRequest "OTP has already been used"), store) := by
  simp [verifyOtp, hg, hty, hu]

theorem verifyOtp_expired (store : OtpStore) (otpId code : String)
    (ty : OtpType) (now : Nat) (r : OtpRecord)
    (hg : storeGet store otpId = some r) (hty : r.type = ty)
    (hu : r.isUsed = false) (he : r.expiresAt < now) :
    verifyOtp store otpId code ty now =
      (.error (.badRequest "OTP has expired"), storeDelete store otpId) := by
  simp [verifyOtp, hg, hty, hu, he]

theorem verifyOtp_locked (store : OtpStore) (otpId code : String)
    (ty : OtpType) (now : Nat) (r : OtpRecord)
    (hg : storeGet store otpId = some r) (hty : r.type = ty)
    (hu : r.isUsed = false) (he : ¬ r.expiresAt < now)
    (ha : 3 ≤ r.attempts) :
    verifyOtp store otpId code ty now =
      (.error (.badRequest "Maximum verification attempts exceeded"),
        storeDelete store otpId) := by
  simp [verifyOtp, hg, hty, hu, he, ha]

theorem verifyOtp_wrongCode (store : OtpStore) (otpId code : String)
    (ty : OtpType) (now : Nat) (r : OtpRecord)
    (hg : storeGet store otpId = some r) (hty : r.type = ty)
    (hu : r.isUsed = false) (he : ¬ r.expiresAt < now)
    (ha : r.attempts < 3) (hc : r.code ≠ code) :
    verifyOtp store otpId code ty now =
      (.error (.badRequest "Invalid OTP code"),
        storeSet store otpId { r with attempts := r.attempts + 1 }) := by
  simp [verifyOtp, hg, hty, hu, he, Nat.not_le.mpr ha, hc]

theorem verifyOtp_success (store : OtpStore) (otpId code : String)
    (ty : OtpType) (now : Nat) (r : OtpRecord)
    (hg : storeGet store otpId = some r) (hty : r.type = ty)
    (hu : r.isUsed = false) (he : ¬ r.expiresAt < now)
    (ha : r.attempts < 3) (hc : r.code = code) :
    verifyOtp store otpId code ty now =
      (.ok { email := r.email, isValid := true },
        storeSet store otpId
          { r with attempts := r.attempts + 1, isUsed := true }) := by
  simp [verifyOtp, hg, hty, hu, he, Nat.not_le.mpr ha, hc]

/-- Inversion: a successful `verifyOtp` call pins down the record and the
resulting store. -/
theorem verifyOtp_ok_inv (store : OtpStore) (otpId code : String)
    (ty : OtpType) (now : Nat) (okv : OtpVerifyOk) (s' : OtpStore)
    (h : verifyOtp store otpId code ty now = (.ok okv, s')) :
    ∃ r, storeGet store otpId = some r ∧ r.type = ty ∧ r.isUsed = false ∧
      ¬ r.expiresAt < now ∧ r.attempts < 3 ∧ r.code = code ∧
      okv = { email := r.email, isValid := true } ∧
      s' = storeSet store otpId
        { r with attempts := r.attempts + 1, isUsed := true } := by
  cases hg : storeGet store otpId with
  | none => rw [verifyOtp_notFound store otpId code ty now hg] at h; simp at h
  | some r =>
    refine ⟨r, rfl, ?_⟩
    by_cases hty : r.type = ty
    · by_cases hu : r.isUsed
      · rw [verifyOtp_alreadyUsed store otpId code ty now r hg hty hu] at h
        simp at h
      · have hu' : r.isUsed = false := by simpa using hu
        by_cases he : r.expiresAt < now
        · rw [verifyOtp_expired store otpId code ty now r hg hty hu' he] at h
          simp at h
        · by_cases ha : 3 ≤ r.attempts
          · rw [verifyOtp_locked store otpId code ty now r hg hty hu' he ha]
              at h
            simp at h
          · have ha' : r.attempts < 3 := Nat.not_le.mp ha
            by_cases hc : r.code = code
            · rw [verifyOtp_success store otpId code ty now r hg hty hu' he
                ha' hc] at h
              injection h with h1 h2
              injection h1 with h1'
              exact ⟨hty, hu', he, ha', hc, h1'.symm, h2.symm⟩
            · rw [verifyOtp_wrongCode store otpId code ty now r hg hty hu' he
                ha' hc] at h
              simp at h
    · rw [verifyOtp_wrongType store otpId code ty now r hg hty] at h
      simp at h

/-- A `verifyOtp` call never touches entries under other keys. -/
theorem verifyOtp_preserves_other (store : OtpStore) (otpId code : String)
    (ty : OtpType) (now : Nat) (key : String) (h : key ≠ otpId) :
    storeGet (verifyOtp store otpId code ty now).2 key = storeGet store key := by
  cases hg : storeGet store otpId with
  | none => rw [verifyOtp_notFound store otpId code ty now hg]
  | some r =>
    by_cases hty : r.type = ty
    · by_cases hu : r.isUsed
      · rw [verifyOtp_alreadyUsed store otpId code ty now r hg hty hu]
      · have hu' : r.isUsed = false := by simpa using hu
        by_cases he : r.expiresAt < now
        · rw [verifyOtp_expired store otpId code ty now r hg hty hu' he]
          exact storeGet_storeDelete_other store otpId key h
        · by_cases ha : 3 ≤ r.attempts
          · rw [verifyOtp_locked store otpId code ty now r hg hty hu' he ha]
            exact storeGet_storeDelete_other store otpId key h
          · have ha' : r.attempts < 3 := Nat.not_le.mp ha
            by_cases hc : r.code = code
            · rw [verifyOtp_success store otpId code ty now r hg hty hu' he
                ha' hc]
              exact storeGet_storeSet_other store otpId key _ h
            · rw [verifyOtp_wrongCode store otpId code ty now r hg hty hu' he
                ha' hc]
              exact storeGet_storeSet_other store otpId key _ h
    · rw [verifyOtp_wrongType store otpId code ty now r hg hty]

/-- On a used record, `verifyOtp` leaves the store untouched, reports
`AlreadyUsed` when the kind matches, and never succeeds. -/
theorem verifyOtp_used_state (store : OtpStore) (otpId : String)
    (r : OtpRecord) (hg : storeGet store otpId = some r)
    (hu : r.isUsed = true) (code : String) (ty : OtpType) (now : Nat) :
    (verifyOtp store otpId code ty now).2 = store ∧
    (r.type = ty → (verifyOtp store otpId code ty now).1 =
      .error (.badRequest "OTP has already been used")) ∧
    ∀ okv, (verifyOtp store otpId code ty now).1 ≠ .ok okv := by
  by_cases hty : r.type = ty
  · rw [verifyOtp_alreadyUsed store otpId code ty now r hg hty hu]
    exact ⟨rfl, fun _ => rfl, fun okv h => by cases h⟩
  · rw [verifyOtp_wrongType store otpId code ty now r hg hty]
    exact ⟨rfl, fun h => absurd h hty, fun okv h => by cases h⟩

/-- A subsequent `verify` call against the registry. -/
structure VCall where
  otpId : String
  code : String
  ty : OtpType
  now : Nat

/-- Run a sequence of `verifyOtp` calls, threading the store. -/
def runVerifies (s : OtpStore) : List VCall → OtpStore
  | [] => s
  | c :: cs => runVerifies (verifyOtp s c.otpId c.code c.ty c.now).2 cs

/-- A used record survives any sequence of further `verify` calls
unchanged. -/
theorem runVerifies_preserves_used (s : OtpStore) (key : String)
    (r : OtpRecord) (hu : r.isUsed = true) (calls : List VCall)
    (h : storeGet s key = some r) :
    storeGet (runVerifies s calls) key = some r := by
  induction calls generalizing s with
  | nil => simpa [runVerifies] using h
  | cons c cs ih =>
    rw [runVerifies]
    apply ih
    by_cases hk : key = c.otpId
    · subst hk
      rw [(verifyOtp_used_state s c.otpId r h hu c.code c.ty c.now).1]
      exact h
    · rw [verifyOtp_preserves_other s c.otpId c.code c.ty c.now key hk]
      exact h

/-- An absent key stays absent under any sequence of `verify` calls. -/
theorem runVerifies_preserves_absent (s : OtpStore) (key : String)
    (calls : List VCall) (h : storeGet s key = none) :
    storeGet (runVerifies s calls) key = none := by
  induction calls generalizing s with
  | nil => simpa [runVerifies] using h
  | cons c cs ih =>
    rw [runVerifies]
    apply ih
    by_cases hk : key = c.otpId
    · subst hk
      rw [verifyOtp_notFound s c.otpId c.code c.ty c.now h]
      exact h
    · rw [verifyOtp_preserves_other s c.otpId c.code c.ty c.now key hk]
      exact h

/-- One failed guess: wrong-code error, and the stored record keeps its
kind, code and expiry but carries one more attempt. -/
theorem verifyOtp_wrongCode_step (store : OtpStore) (otpId code : String)
    (ty : OtpType) (now : Nat) (r : OtpRecord)
    (hg : storeGet store otpId = some r) (hty : r.type = ty)
    (hu : r.isUsed = false) (he : ¬ r.expiresAt < now)
    (ha : r.attempts < 3) (hc : r.code ≠ code) :
    (verifyOtp store otpId code ty now).1 =
      .error (.badRequest "Invalid OTP code") ∧
    ∃ r2, storeGet (verifyOtp store otpId code ty now).2 otpId = some r2 ∧
      r2.type = ty ∧ r2.isUsed = false ∧ r2.expiresAt = r.expiresAt ∧
      r2.code = r.code ∧ r2.attempts = r.attempts + 1 := by
  rw [verifyOtp_wrongCode store otpId code ty now r hg hty hu he ha hc]
  exact ⟨rfl, { r with attempts := r.attempts + 1 },
    storeGet_storeSet_self store otpId _, hty, hu, rfl, rfl, rfl⟩

/-- C2: starting from a fresh record, three consecutive wrong-code
`verify` calls are counted; the 4th call fails with the attempts-exceeded
error whatever code it submits (correct included), deletes the record,
and every later `verify` call on that id reports not-found. -/
theorem otp_attempt_limit (s0 : OtpStore) (otpId : String) (r : OtpRecord)
    (ty : OtpType) (c1 c2 c3 : String) (now1 now2 now3 now4 : Nat)
    (s1 s2 s3 : OtpStore)
    (hg : storeGet s0 otpId = some r) (hty : r.type = ty)
    (hu : r.isUsed = false) (ha : r.attempts = 0)
    (hc1 : r.code ≠ c1) (hc2 : r.code ≠ c2) (hc3 : r.code ≠ c3)
    (he1 : ¬ r.expiresAt < now1) (he2 : ¬ r.expiresAt < now2)
    (he3 : ¬ r.expiresAt < now3) (he4 : ¬ r.expiresAt < now4)
    (hs1 : s1 = (verifyOtp s0 otpId c1 ty now1).2)
    (hs2 : s2 = (verifyOtp s1 otpId c2 ty now2).2)
    (hs3 : s3 = (verifyOtp s2 otpId c3 ty now3).2) :
    ((verifyOtp s0 otpId c1 ty now1).1 =
      .error (.badRequest "Invalid OTP code")) ∧
    ((verifyOtp s1 otpId c2 ty now2).1 =
      .error (.badRequest "Invalid OTP code")) ∧
    ((verifyOtp s2 otpId c3 ty now3).1 =
      .error (.badRequest "Invalid OTP code")) ∧
    (∀ c4, (verifyOtp s3 otpId c4 ty now4).1 =
      .error (.badRequest "Maximum verification attempts exceeded")) ∧
    (∀ c4 ty4 now4' okv, (verifyOtp s3 otpId c4 ty4 now4').1 ≠ .ok okv) ∧
    (∀ c4 calls c5 ty5 now5,
      (verifyOtp (runVerifies (verifyOtp s3 otpId c4 ty now4).2 calls)
          otpId c5 ty5 now5).1 =
        .error (.notFound "OTP not found or expired")) := by
  obtain ⟨e1, r1, hg1, hty1, hu1, hexp1, hcode1, hat1⟩ :=
    verifyOtp_wrongCode_step s0 otpId c1 ty now1 r hg hty hu he1
      (by omega) hc1
  rw [← hs1] at hg1
  obtain ⟨e2, r2, hg2, hty2, hu2, hexp2, hcode2, hat2⟩ :=
    verifyOtp_wrongCode_step s1 otpId c2 ty now2 r1 hg1 hty1 hu1
      (by rw [hexp1]; exact he2) (by omega) (by rw [hcode1]; exact hc2)
  rw [← hs2] at hg2
  obtain ⟨e3, r3, hg3, hty3, hu3, hexp3, hcode3, hat3⟩ :=
    verifyOtp_wrongCode_step s2 otpId c3 ty now3 r2 hg2 hty2 hu2
      (by rw [hexp2, hexp1]; exact he3) (by omega)
      (by rw [hcode2, hcode1]; exact hc3)
  rw [← hs3] at hg3
  have hat3' : 3 ≤ r3.attempts := by omega
  have he4' : ¬ r3.expiresAt < now4 := by rw [hexp3, hexp2, hexp1]; exact he4
  refine ⟨e1, e2, e3, ?_, ?_, ?_⟩
  · intro c4
    rw [verifyOtp_locked s3 otpId c4 ty now4 r3 hg3 hty3 hu3 he4' hat3']
  · intro c4 ty4 now4' okv
    by_cases hty4 : r3.type = ty4
    · by_cases hexp4 : r3.expiresAt < now4'
      · rw [verifyOtp_expired s3 otpId c4 ty4 now4' r3 hg3 hty4 hu3 hexp4]
        exact fun hcl => by cases hcl
      · rw [verifyOtp_locked s3 otpId c4 ty4 now4' r3 hg3 hty4 hu3 hexp4
          hat3']
        exact fun hcl => by cases hcl
    · rw [verifyOtp_wrongType s3 otpId c4 ty4 now4' r3 hg3 hty4]
      exact fun hcl => by cases hcl
  · intro c4 calls c5 ty5 now5
    have hdel : storeGet (verifyOtp s3 otpId c4 ty now4).2 otpId = none := by
      rw [verifyOtp_locked s3 otpId c4 ty now4 r3 hg3 hty3 hu3 he4' hat3']
      exact storeGet_storeDelete_self s3 otpId
    have habs := runVerifies_preserves_absent _ otpId calls hdel
    rw [verifyOtp_notFound _ otpId c5 ty5 now5 habs]

/-- Sample OTP record for the C2 witness: fresh, code `111111`. -/
def c2Rec0 : OtpRecord :=
  { id := "otp1", email := "a@x.com", code := "111111"
    type := .emailVerification, expiresAt := 100, attempts := 0
    isUsed := false, createdAt := 0 }

theorem otp_attempt_limit_witness :
    (verifyOtp [("otp1", { c2Rec0 with attempts := 3 })] "otp1" "111111"
        OtpType.emailVerification 0).1 =
      .error (.badRequest "Maximum verification attempts exceeded") :=
  (otp_attempt_limit [("otp1", c2Rec0)] "otp1" c2Rec0
    .emailVerification "000000" "000000" "000000" 0 0 0 0
    [("otp1", { c2Rec0 with attempts := 1 })]
    [("otp1", { c2Rec0 with attempts := 2 })]
    [("otp1", { c2Rec0 with attempts := 3 })]
    (by decide) (by decide) (by decide) (by decide) (by decide) (by decide)
    (by decide) (by decide) (by decide) (by decide) (by decide)
    (by decide) (by decide) (by decide)).2.2.2.1 "111111"

/-- C3: once `verifyOtp` has succeeded on a record, then after any
further sequence of verify calls, a `verify` on the same id with any code
fails with `AlreadyUsed` when the kind matches, and never succeeds for
any kind, code or time: a used record never validates again. -/
theorem otp_used_never_validates_again (store : OtpStore)
    (otpId code : String) (ty : OtpType) (now : Nat) (okv : OtpVerifyOk)
    (s' : OtpStore) (h : verifyOtp store otpId code ty now = (.ok okv, s'))
    (calls : List VCall) :
    (∀ code2 now2,
      (verifyOtp (runVerifies s' calls) otpId code2 ty now2).1 =
        .error (.badRequest "OTP has already been used")) ∧
    (∀ code2 ty2 now2 okv2,
      (verifyOtp (runVerifies s' calls) otpId code2 ty2 now2).1 ≠
        .ok okv2) := by
  obtain ⟨r, hg, hty, hu, he, ha, hc, hok, hs'⟩ :=
    verifyOtp_ok_inv store otpId code ty now okv s' h
  have hused : storeGet s' otpId =
      some { r with attempts := r.attempts + 1, isUsed := true } := by
    rw [hs']; exact storeGet_storeSet_self store otpId _
  have h2 := runVerifies_preserves_used s' otpId _ rfl calls hused
  refine ⟨fun code2 now2 => ?_, fun code2 ty2 now2 okv2 => ?_⟩
  · exact (verifyOtp_used_state _ otpId _ h2 rfl code2 ty now2).2.1 hty
  · exact (verifyOtp_used_state _ otpId _ h2 rfl code2 ty2 now2).2.2 okv2

/-- Sample OTP record for the C3 witness. -/
def c3Rec0 : OtpRecord :=
  { id := "otp1", email := "a@x.com", code := "123456"
    type := .emailVerification, expiresAt := 100, attempts := 0
    isUsed := false, createdAt := 0 }

theorem otp_used_never_validates_again_witness :
    (verifyOtp [("otp1", { c3Rec0 with attempts := 1, isUsed := true })]
        "otp1" "123456" OtpType.emailVerification 50).1 =
      .error (.badRequest "OTP has already been used") :=
  (otp_used_never_validates_again [("otp1", c3Rec0)] "otp1" "123456"
    .emailVerification 0 { email := "a@x.com", isValid := true }
    [("otp1", { c3Rec0 with attempts := 1, isUsed := true })]
    (by decide) []).1 "123456" 50

/-- Sample fresh OTP record used in the C4/C5 theorems. -/
def c4Rec : OtpRecord :=
  { id := "otp1", email := "a@x.com", code := "123456"
    type := .emailVerification, expiresAt := 100, attempts := 0
    isUsed := false, createdAt := 0 }

/-- C4 counterexample: a verify call with the wrong kind fails with
`Invalid OTP type` — an outcome that is neither success nor NotFound —
yet the attempts counter of the record is left at 0, not incremented. -/
theorem otp_attempts_increment_counterexample :
    (verifyOtp [("otp1", c4Rec)] "otp1" "123456"
        OtpType.passwordReset 0).1 = .error (.badRequest "Invalid OTP type") ∧
    (verifyOtp [("otp1", c4Rec)] "otp1" "123456"
        OtpType.passwordReset 0).1 ≠
      .error (.notFound "OTP not found or expired") ∧
    storeGet (verifyOtp [("otp1", c4Rec)] "otp1" "123456"
        OtpType.passwordReset 0).2 "otp1" = some c4Rec ∧
    c4Rec.attempts = 0 := by decide

/-- C4 (amended): `attempts` is incremented, before the code comparison,
exactly on the calls that pass every guard (record present, matching
kind, unused, unexpired, fewer than 3 attempts) — in particular a
wrong-code guess always counts against the limit; on WrongKind and
AlreadyUsed failures the record is unchanged, and on Expired and
TooManyAttempts failures the record is deleted rather than counted. -/
theorem otp_attempts_increment_semantics (store : OtpStore)
    (otpId code : String) (ty : OtpType) (now : Nat) (r : OtpRecord)
    (hg : storeGet store otpId = some r) :
    (r.type = ty → r.isUsed = false → ¬ r.expiresAt < now →
      r.attempts < 3 →
      ∃ r2, storeGet (verifyOtp store otpId code ty now).2 otpId = some r2 ∧
        r2.attempts = r.attempts + 1 ∧
        (r.code ≠ code → (verifyOtp store otpId code ty now).1 =
          .error (.badRequest "Invalid OTP code"))) ∧
    (r.type ≠ ty → (verifyOtp store otpId code ty now).2 = store) ∧
    (r.type = ty → r.isUsed = true →
      (verifyOtp store otpId code ty now).2 = store) ∧
    (r.type = ty → r.isUsed = false → r.expiresAt < now →
      storeGet (verifyOtp store otpId code ty now).2 otpId = none) ∧
    (r.type = ty → r.isUsed = false → ¬ r.expiresAt < now →
      3 ≤ r.attempts →
      storeGet (verifyOtp store otpId code ty now).2 otpId = none) := by
  refine ⟨?_, ?_, ?_, ?_, ?_⟩
  · intro hty hu he ha
    by_cases hc : r.code = code
    · rw [verifyOtp_success store otpId code ty now r hg hty hu he ha hc]
      exact ⟨{ r with attempts := r.attempts + 1, isUsed := true },
        storeGet_storeSet_self store otpId _, rfl,
        fun hne => absurd hc hne⟩
    · rw [verifyOtp_wrongCode store otpId code ty now r hg hty hu he ha hc]
      exact ⟨{ r with attempts := r.attempts + 1 },
        storeGet_storeSet_self store otpId _, rfl, fun _ => rfl⟩
  · intro hty
    rw [verifyOtp_wrongType store otpId code ty now r hg hty]
  · intro hty hu
    rw [verifyOtp_alreadyUsed store otpId code ty now r hg hty hu]
  · intro hty hu he
    rw [verifyOtp_expired store otpId code ty now r hg hty hu he]
    exact storeGet_storeDelete_self store otpId
  · intro hty hu he ha
    rw [verifyOtp_locked store otpId code ty now r hg hty hu he ha]
    exact storeGet_storeDelete_self store otpId

theorem otp_attempts_increment_semantics_witness :
    ∃ r2, storeGet (verifyOtp [("otp1", c4Rec)] "otp1" "000000"
        OtpType.emailVerification 0).2 "otp1" = some r2 ∧
      r2.attempts = c4Rec.attempts + 1 ∧
      (c4Rec.code ≠ "000000" →
        (verifyOtp [("otp1", c4Rec)] "otp1" "000000"
          OtpType.emailVerification 0).1 =
        .error (.badRequest "Invalid OTP code")) :=
  (otp_attempts_increment_semantics [("otp1", c4Rec)] "otp1" "000000"
    .emailVerification 0 c4Rec (by decide)).1 rfl rfl (by decide) (by decide)

/-- C5 counterexample: the NotFound, Expired and Locked outcomes are
pairwise distinct observable errors (a `NotFoundException` versus two
`BadRequestException`s with different messages), not a single collapsed
"invalid or expired code" error. -/
theorem otp_failure_outcomes_counterexample :
    (verifyOtp [] "missing" "123456" OtpType.emailVerification 0).1 =
      .error (.notFound "OTP not found or expired") ∧
    (verifyOtp [("otp1", c4Rec)] "otp1" "123456"
        OtpType.emailVerification 101).1 =
      .error (.badRequest "OTP has expired") ∧
    (verifyOtp [("otp1", { c4Rec with attempts := 3 })] "otp1" "123456"
        OtpType.emailVerification 0).1 =
      .error (.badRequest "Maximum verification attempts exceeded") ∧
    HttpError.notFound "OTP not found or expired" ≠
      HttpError.badRequest "OTP has expired" ∧
    HttpError.notFound "OTP not found or expired" ≠
      HttpError.badRequest "Maximum verification attempts exceeded" ∧
    HttpError.badRequest "OTP has expired" ≠
      HttpError.badRequest "Maximum verification attempts exceeded" := by
  decide

/-- C5 (amended): NotFound yields a not-found error whose message
conflates absence and expiry, while Expired and Locked yield bad-request
errors with distinct messages — the three outcomes are distinguishable
to a caller; Expired and Locked delete the record on the triggering
call, so only subsequent calls collapse into NotFound. -/
theorem otp_failure_outcomes (store : OtpStore) (otpId code : String)
    (ty : OtpType) (now : Nat) :
    (storeGet store otpId = none →
      verifyOtp store otpId code ty now =
        (.error (.notFound "OTP not found or expired"), store)) ∧
    (∀ r, storeGet store otpId = some r → r.type = ty → r.isUsed = false →
      r.expiresAt < now →
      (verifyOtp store otpId code ty now).1 =
        .error (.badRequest "OTP has expired") ∧
      storeGet (verifyOtp store otpId code ty now).2 otpId = none) ∧
    (∀ r, storeGet store otpId = some r → r.type = ty → r.isUsed = false →
      ¬ r.expiresAt < now → 3 ≤ r.attempts →
      (verifyOtp store otpId code ty now).1 =
        .error (.badRequest "Maximum verification attempts exceeded") ∧
      storeGet (verifyOtp store otpId code ty now).2 otpId = none) ∧
    (HttpError.notFound "OTP not found or expired" ≠
      HttpError.badRequest "OTP has expired" ∧
    HttpError.notFound "OTP not found or expired" ≠
      HttpError.badRequest "Maximum verification attempts exceeded" ∧
    HttpError.badRequest "OTP has expired" ≠
      HttpError.badRequest "Maximum verification attempts exceeded") := by
  refine ⟨?_, ?_, ?_, by decide, by decide, by decide⟩
  · intro h
    exact verifyOtp_notFound store otpId code ty now h
  · intro r hg hty hu he
    rw [verifyOtp_expired store otpId code ty now r hg hty hu he]
    exact ⟨rfl, storeGet_storeDelete_self store otpId⟩
  · intro r hg hty hu he ha
    rw [verifyOtp_locked store otpId code ty now r hg hty hu he ha]
    exact ⟨rfl, storeGet_storeDelete_self store otpId⟩

theorem otp_failure_outcomes_witness :
    verifyOtp [] "missing" "123456" OtpType.emailVerification 0 =
      (.error (.notFound "OTP not found or expired"), []) :=
  (otp_failure_outcomes [] "missing" "123456" .emailVerification 0).1 rfl

/-- The user returned by `findByEmailOrUsername` matches the identifier
and is not soft-deleted. -/
theorem findByEmailOrUsername_spec (db : UserDb) (identifier : String)
    (u : User) (h : findByEmailOrUsername db identifier = some u) :
    (u.email = strToLower identifier ∨ u.username = strToLower identifier) ∧
      u.deletedAt = none := by
  rw [findByEmailOrUsername] at h
  simpa using List.find?_some h

/-- C1: `signin` succeeds only when the resolved user satisfies
`isSignupComplete ∧ isVerified ∧ isActive ∧ deletedAt = null` and the
submitted password matches the stored hash; and for a resolved user with
`isVerified = false`, `signin` fails with an `UnauthorizedException`
whatever the password (the correct one included). -/
theorem signin_gate (db : UserDb) (compare : String → String → Bool)
    (identifier password : String) :
    (∀ res, signin db compare identifier password = .ok res →
      ∃ u, findByEmailOrUsername db identifier = some u ∧
        u.isSignupComplete = true ∧ u.isVerified = true ∧
        u.isActive = true ∧ u.deletedAt = none ∧
        compare password u.passwordHash = true) ∧
    (∀ u, findByEmailOrUsername db identifier = some u →
      u.isVerified = false →
      ∃ msg, signin db compare identifier password =
        .error (.unauthorized msg)) := by
  constructor
  · intro res h
    cases hf : findByEmailOrUsername db identifier with
    | none =>
      rw [signin, hf] at h
      cases hd : findByEmailOrUsernameIncludingDeleted db identifier with
      | none => rw [hd] at h; simp at h
      | some du =>
        rw [hd] at h
        by_cases hact : du.isActive <;> simp [hact] at h
    | some u =>
      rw [signin, hf] at h
      refine ⟨u, rfl, ?_⟩
      by_cases h1 : u.isSignupComplete
      · by_cases h2 : u.isVerified
        · by_cases h3 : u.isActive
          · by_cases h4 : compare password u.passwordHash
            · exact ⟨h1, h2, h3,
                (findByEmailOrUsername_spec db identifier u hf).2, h4⟩
            · simp [h1, h2, h3, h4] at h
          · simp [h1, h2, h3] at h
        · simp [h1, h2] at h
      · simp [h1] at h
  · intro u hf hv
    by_cases h1 : u.isSignupComplete
    · refine ⟨"Please verify your email address before signing in. Check your email for a verification link.", ?_⟩
      rw [signin, hf]
      simp [h1, hv]
    · refine ⟨"Please complete your registration before signing in", ?_⟩
      rw [signin, hf]
      simp [h1]

/-- Sample unverified user for the C1 witness: both signup steps are
complete, the account is active, only `isVerified` is false. -/
def c1User : User :=
  { id := "u1", username := "alice", email := "a@x.com"
    passwordHash := "hash1", stepOneComplete := true
    stepTwoComplete := true, isVerified := false, isActive := true }

theorem signin_gate_witness :
    ∃ msg, signin [c1User] (fun _ _ => true) "alice" "correct-password" =
      .error (.unauthorized msg) :=
  (signin_gate [c1User] (fun _ _ => true) "alice" "correct-password").2
    c1User (by decide) rfl

/-- Lemma: `findById` misses exactly when no stored row with that id is
live (non-deleted). -/
theorem findById_eq_none (db : UserDb) (id : String)
    (h : ∀ u ∈ db, u.id = id → u.deletedAt ≠ none) :
    findById db id = none := by
  rw [findById]
  apply List.find?_eq_none.mpr
  intro u hu
  simp only [decide_eq_true_eq, not_and]
  exact fun h1 h2 => h u hu h1 h2

/-- Sample deactivated-but-not-deleted user for C6. -/
def c6User : User :=
  { id := "u1", username := "alice", email := "a@x.com"
    passwordHash := "hash1", stepOneComplete := true
    stepTwoComplete := true, isVerified := true, isActive := false }

/-- Decode oracle mapping every token to the claims of the sample user. -/
def c6Decode : String → Option JwtPayload :=
  fun _ => some { sub := "u1", email := "a@x.com", username := "alice" }

/-- C6 counterexample: for a deactivated account (`isActive = false`,
`deletedAt = null`) and a decodable token, `getUserFromToken` still
still returns the profile — the profile-from-token path never consults
`isActive`, so a not-yet-expired token keeps working there, refuting the
claim as stated (`verifyToken`, by contrast, rejects the same token). -/
theorem token_deactivation_counterexample :
    c6User.isActive = false ∧ c6User.deletedAt = none ∧
    getUserFromToken [c6User] c6Decode "tok" = some (profileOf c6User) ∧
    verifyToken [c6User] c6Decode "tok" =
      { valid := false, user := none } := by decide

/-- C6 (amended): `verifyToken` re-checks `isActive` against storage at
verify time and rejects the live token of a deactivated account;
`getUserFromToken` performs no `isActive` check and rejects only when
every stored row carrying the token subject id is soft-deleted
(`deletedAt ≠ null`) — in particular, after the deactivation operation
of the service itself (`softDelete`, which sets both flags) the token
stops working on both paths; and no returned result ever contains the
password hash (results are `profileOf` images, and `profileOf` is
independent of the stored hash). -/
theorem token_deactivation_checks (db : UserDb)
    (decode : String → Option JwtPayload) (token : String) :
    (∀ payload u, decode token = some payload →
      findById db payload.sub = some u → u.isActive = false →
      verifyToken db decode token = { valid := false, user := none }) ∧
    ((verifyToken db decode token).valid = true →
      ∃ payload u, decode token = some payload ∧
        findById db payload.sub = some u ∧ u.isActive = true) ∧
    (∀ payload, decode token = some payload →
      (∀ u ∈ db, u.id = payload.sub → u.deletedAt ≠ none) →
      verifyToken db decode token = { valid := false, user := none } ∧
      getUserFromToken db decode token = none) ∧
    (∀ id now db', softDelete db id now = (.ok true, db') →
      ∀ payload, decode token = some payload → payload.sub = id →
      verifyToken db' decode token = { valid := false, user := none } ∧
      getUserFromToken db' decode token = none) ∧
    (∀ p, getUserFromToken db decode token = some p →
      ∃ u, p = profileOf u) ∧
    (∀ u h, profileOf { u with passwordHash := h } = profileOf u) := by
  have hdead : ∀ (d : UserDb) payload, decode token = some payload →
      findById d payload.sub = none →
      verifyToken d decode token = { valid := false, user := none } ∧
      getUserFromToken d decode token = none := by
    intro d payload hdec hnone
    constructor
    · simp only [verifyToken, hdec, hnone]
    · simp only [getUserFromToken, hdec, getUserProfile, hnone,
        Option.map_none']
  refine ⟨?_, ?_, ?_, ?_, ?_, ?_⟩
  · intro payload u hdec hfind hact
    simp [verifyToken, hdec, hfind, hact]
  · intro hv
    cases hdec : decode token with
    | none => simp only [verifyToken, hdec] at hv; cases hv
    | some payload =>
      cases hfind : findById db payload.sub with
      | none => simp only [verifyToken, hdec, hfind] at hv; cases hv
      | some u =>
        by_cases hact : u.isActive
        · exact ⟨payload, u, rfl, hfind, hact⟩
        · simp only [verifyToken, hdec, hfind] at hv
          simp [hact] at hv
  · intro payload hdec hall
    exact hdead db payload hdec (findById_eq_none db payload.sub hall)
  · intro id now db' hsd payload hdec hsub
    have hdb' : db' = db.map fun u =>
        if u.id = id then { u with deletedAt := some now, isActive := false }
        else u := by
      cases hfind : findById db id with
      | none => simp only [softDelete, hfind] at hsd; simp at hsd
      | some w =>
        simp only [softDelete, hfind] at hsd
        exact (congrArg Prod.snd hsd).symm
    have hall : ∀ u ∈ db', u.id = payload.sub → u.deletedAt ≠ none := by
      intro u hu hid
      rw [hdb'] at hu
      obtain ⟨v, hv, rfl⟩ := List.mem_map.mp hu
      by_cases hvid : v.id = id
      · simp [hvid]
      · rw [if_neg hvid] at hid ⊢
        exact absurd (hsub ▸ hid) hvid
    exact hdead db' payload hdec (findById_eq_none db' payload.sub hall)
  · intro p hp
    cases hdec : decode token with
    | none => simp only [getUserFromToken, hdec] at hp; cases hp
    | some payload =>
      simp only [getUserFromToken, hdec, getUserProfile] at hp
      obtain ⟨u, _, hu⟩ := Option.map_eq_some'.mp hp
      exact ⟨u, hu.symm⟩
  · intro u h
    rfl

theorem token_deactivation_checks_witness :
    verifyToken [c6User] c6Decode "tok" = { valid := false, user := none } :=
  ((token_deactivation_checks [c6User] c6Decode "tok").1
    { sub := "u1", email := "a@x.com", username := "alice" } c6User rfl
    (by decide) rfl)

/-- C7: if notification dispatch fails during OTP generation (either
kind), the OTP record created in that operation is removed from the
registry — no orphaned record remains under its id — and a retryable
"please try again" error is surfaced to the caller. -/
theorem otp_dispatch_failure_rollback (store : OtpStore) (email : String)
    (code otpId : String) (now : Nat) (send : EmailRequest → Bool) :
    (send (emailVerificationRequest email code) = false →
      (generateEmailVerificationOtp store email code otpId now send).1 =
        .error (.badRequest
          "Failed to send verification email. Please try again.") ∧
      storeGet
        (generateEmailVerificationOtp store email code otpId now send).2.1
        otpId = none) ∧
    (send (passwordResetRequest email code) = false →
      (generatePasswordResetOtp store email code otpId now send).1 =
        .error (.badRequest
          "Failed to send password reset email. Please try again.") ∧
      storeGet
        (generatePasswordResetOtp store email code otpId now send).2.1
        otpId = none) := by
  constructor
  · intro hsend
    simp [generateEmailVerificationOtp, hsend, storeGet_storeDelete_self]
  · intro hsend
    simp [generatePasswordResetOtp, hsend, storeGet_storeDelete_self]

theorem otp_dispatch_failure_rollback_witness :
    (generateEmailVerificationOtp [] "a@x.com" "123456" "otp1" 0
        (fun _ => false)).1 =
      .error (.badRequest
        "Failed to send verification email. Please try again.") ∧
    storeGet (generateEmailVerificationOtp [] "a@x.com" "123456" "otp1" 0
        (fun _ => false)).2.1 "otp1" = none :=
  (otp_dispatch_failure_rollback [] "a@x.com" "123456" "otp1" 0
    (fun _ => false)).1 rfl

/-- C8: forgot-password responds with a success value of the same shape
(`otpId` and `message` both populated) whether or not the email has an
account; when the email has no account the registry is untouched and no
dispatch happens, and a real password-reset OTP is stored and dispatched
exactly in the run where the account exists. -/
theorem forgot_password_non_enumeration (db : UserDb) (store : OtpStore)
    (email code otpId : String) (now : Nat) (send : EmailRequest → Bool) :
    (send (passwordResetRequest email code) = true →
      ∃ o m, (forgotPassword db store email code otpId now send).1 =
        .ok { otpId := o, message := m }) ∧
    (findByEmail db email = none →
      forgotPassword db store email code otpId now send =
        (.ok { otpId := "dummy_otp_id"
               message := "If the email exists, a reset code has been sent." },
          store, [])) ∧
    (∀ u, findByEmail db email = some u →
      send (passwordResetRequest email code) = true →
      (forgotPassword db store email code otpId now send).2.2 =
        [passwordResetRequest email code] ∧
      ∃ r, storeGet (forgotPassword db store email code otpId now send).2.1
          otpId = some r ∧
        r.email = email ∧ r.type = .passwordReset ∧ r.code = code ∧
        r.isUsed = false) := by
  refine ⟨?_, ?_, ?_⟩
  · intro hsend
    cases hfind : findByEmail db email with
    | none =>
      exact ⟨"dummy_otp_id", "If the email exists, a reset code has been sent.",
        by simp [forgotPassword, hfind]⟩
    | some u =>
      exact ⟨otpId, "Password reset code sent to your email",
        by simp [forgotPassword, hfind, generatePasswordResetOtp, hsend]⟩
  · intro hfind
    simp [forgotPassword, hfind]
  · intro u hfind hsend
    constructor
    · simp [forgotPassword, hfind, generatePasswordResetOtp, hsend]
    · refine ⟨⟨otpId, email, code, .passwordReset, now + 10 * 60 * 1000,
        0, false, now⟩, ?_, rfl, rfl, rfl, rfl⟩
      have h1 := storeGet_storeSet_self store otpId
        ⟨otpId, email, code, .passwordReset, now + 10 * 60 * 1000,
          0, false, now⟩
      have h2 := storeGet_cleanupExpired_of_live _ now otpId _ h1
        (show ¬ now + 10 * 60 * 1000 < now by omega)
      simpa [forgotPassword, hfind, generatePasswordResetOtp, hsend] using h2

theorem forgot_password_non_enumeration_witness :
    forgotPassword [] [] "b@x.com" "123456" "otp1" 0 (fun _ => true) =
      (.ok { otpId := "dummy_otp_id"
             message := "If the email exists, a reset code has been sent." },
        [], []) :=
  (forgot_password_non_enumeration [] [] "b@x.com" "123456" "otp1" 0
    (fun _ => true)).2.1 rfl

/-- Lemma: `applyUpdate` touches neither `id` nor `deletedAt`, so `findById`
commutes with the row update. -/
theorem findById_map_update (db : UserDb) (id : String)
    (d : UpdateUserData) :
    findById (db.map fun u => if u.id = id then applyUpdate d u else u) id =
      (findById db id).map fun u => applyUpdate d u := by
  induction db with
  | nil => rfl
  | cons v rest ih =>
    by_cases hvid : v.id = id
    · by_cases hvd : v.deletedAt = none
      · simp [findById, List.find?_cons, hvid, hvd, applyUpdate] at *
      · simp [findById, List.find?_cons, hvid, hvd, applyUpdate] at *
        exact ih
    · simp [findById, List.find?_cons, hvid] at *
      exact ih

/-- The update performed by `verifyEmail`. -/
def markVerified (now : Nat) : UpdateUserData :=
  { isVerified := some true, emailVerifiedAt := some now }

/-- Lemma: `updateUser` with the `verifyEmail` payload succeeds whenever the id
resolves: the payload carries no username, so no conflict check fires. -/
theorem updateUser_markVerified (db : UserDb) (id : String) (now : Nat)
    (w : User) (h : findById db id = some w) :
    updateUser db id (markVerified now) =
      (.ok (applyUpdate (markVerified now) w),
        db.map fun u =>
          if u.id = id then applyUpdate (markVerified now) u else u) := by
  simp only [updateUser, h, markVerified, findById_map_update,
    Option.map_some']
  rfl

/-- Sample already-verified user for C9. -/
def c9User : User :=
  { id := "u1", username := "alice", email := "a@x.com",
    passwordHash := "hash1", stepOneComplete := true,
    stepTwoComplete := true, isVerified := true,
    emailVerifiedAt := some 5, isActive := true }

/-- Sample live unused email-verification OTP for the same email. -/
def c9Rec : OtpRecord :=
  { id := "otp1", email := "a@x.com", code := "123456",
    type := .emailVerification, expiresAt := 100, attempts := 0,
    isUsed := false, createdAt := 0 }

/-- C9 counterexample: with an already-verified user and a live unused
verification OTP for that email, `verifyEmail` succeeds (re-marking the
user verified) instead of rejecting the re-verification as an error. -/
theorem email_reverification_counterexample :
    c9User.isVerified = true ∧
    (verifyEmail [c9User] [("otp1", c9Rec)] "otp1" "123456" 50).1 =
      .ok "Email verified successfully" := by decide

/-- C9 (amended): requesting a new verification OTP for an
already-verified email is rejected with `Email is already verified`, but
the verify path performs no already-verified check: a valid unused
EMAIL_VERIFICATION OTP verifies successfully against an already-verified
user (re-marking the user verified) rather than failing. -/
theorem email_reverification (db : UserDb) (store : OtpStore) :
    (∀ email code otpId now send u, findByEmail db email = some u →
      u.isVerified = true →
      requestEmailVerification db store email code otpId now send =
        (.error (.badRequest "Email is already verified"), store, [])) ∧
    (∀ otpId code now okv store1 u,
      verifyOtp store otpId code .emailVerification now =
        (.ok okv, store1) →
      findByEmail db okv.email = some u → u.isVerified = true →
      (verifyEmail db store otpId code now).1 =
        .ok "Email verified successfully") := by
  constructor
  · intro email code otpId now send u hfind hv
    simp [requestEmailVerification, hfind, hv]
  · intro otpId code now okv store1 u hverify hfind hv
    have hfind' : List.find?
        (fun u => decide (u.email = strToLower okv.email ∧
          u.deletedAt = none)) db = some u := by
      rw [findByEmail] at hfind; exact hfind
    have hmem : u ∈ db := List.mem_of_find?_eq_some hfind'
    have hpred := List.find?_some hfind'
    simp only [decide_eq_true_eq] at hpred
    have hsome : (findById db u.id).isSome := by
      rw [findById]
      apply List.find?_isSome.mpr
      exact ⟨u, hmem, by simp [hpred.2]⟩
    obtain ⟨w, hw⟩ := Option.isSome_iff_exists.mp hsome
    have hupd := updateUser_markVerified db u.id now w hw
    rw [markVerified] at hupd
    simp only [verifyEmail, hverify, hfind, hupd]

theorem email_reverification_witness :
    requestEmailVerification [c9User] [] "a@x.com" "123456" "otp1" 0
        (fun _ => true) =
      (.error (.badRequest "Email is already verified"), [], []) :=
  (email_reverification [c9User] []).1 "a@x.com" "123456" "otp1" 0
    (fun _ => true) c9User (by decide) rfl

/-- Sample admin-creation payload for C10. -/
def c10Dto : CreateAdminDto :=
  { username := "newadmin", password := "pw123", name := "New Admin",
    role := 1 }

/-- C10 counterexample: a supplied requesting id that resolves to no
stored admin at all still triggers the Forbidden rejection — the role
gate does not fire only when the id resolves to a stored admin with
role ≠ 0. -/
theorem admin_create_gate_counterexample :
    adminCreate [] c10Dto (some "ghost") (fun p => p) "a1" =
      .error (.forbidden "Only super administrators can create new admins") ∧
    adminFindById [] "ghost" = none := by decide

/-- C10 (amended): when `requestingAdminId` is omitted the super-admin
gate is skipped entirely — no Forbidden error is possible and creation
succeeds exactly when the username is free; when an id is supplied, the
Forbidden error occurs exactly when it does not resolve to a stored
super admin (role 0), which covers both an id resolving to an admin with
role ≠ 0 and an id resolving to no stored admin at all. -/
theorem admin_create_gate (admins : List Admin) (dto : CreateAdminDto)
    (requestingAdminId : Option String) (hash : String → String)
    (newId : String) :
    (∀ msg, adminCreate admins dto none hash newId ≠
      .error (.forbidden msg)) ∧
    (adminFindByUsername admins dto.username = none →
      adminCreate admins dto none hash newId =
        .ok ({ id := newId, username := dto.username, name := dto.name,
               passwordHash := hash dto.password, role := dto.role },
          admins ++
            [{ id := newId, username := dto.username, name := dto.name,
               passwordHash := hash dto.password, role := dto.role }])) ∧
    ((adminFindByUsername admins dto.username).isSome = true →
      adminCreate admins dto none hash newId =
        .error (.conflict "Username already taken")) ∧
    (∀ msg, adminCreate admins dto requestingAdminId hash newId =
        .error (.forbidden msg) ↔
      (msg = "Only super administrators can create new admins" ∧
        ∃ rid, requestingAdminId = some rid ∧
          ∀ ra, adminFindById admins rid = some ra → ra.role ≠ 0)) := by
  refine ⟨?_, ?_, ?_, ?_⟩
  · intro msg h
    by_cases hu : (adminFindByUsername admins dto.username).isSome
    · rw [adminCreate] at h
      simp [hu] at h
    · rw [adminCreate] at h
      simp [hu] at h
  · intro hfree
    rw [adminCreate]
    simp [hfree]
  · intro hu
    rw [adminCreate]
    simp [hu]
  · intro msg
    constructor
    · intro h
      cases hrid : requestingAdminId with
      | none =>
        rw [hrid] at h
        by_cases hu : (adminFindByUsername admins dto.username).isSome
        · rw [adminCreate] at h; simp [hu] at h
        · rw [adminCreate] at h; simp [hu] at h
      | some rid =>
        rw [hrid] at h
        cases hfind : adminFindById admins rid with
        | none =>
          rw [adminCreate] at h
          simp only [hfind] at h
          injection h with h1
          injection h1 with h2
          refine ⟨h2.symm, rid, rfl, ?_⟩
          intro ra hra
          rw [hfind] at hra
          cases hra
        | some ra =>
          rw [adminCreate] at h
          simp only [hfind] at h
          by_cases hrole : ra.role = 0
          · simp only [hrole] at h
            by_cases hu : (adminFindByUsername admins dto.username).isSome
            · simp [hu] at h
            · simp [hu] at h
          · simp [hrole] at h
            refine ⟨h.symm, rid, rfl, ?_⟩
            intro ra' hra'
            rw [hfind] at hra'
            injection hra' with he
            rw [← he]
            exact hrole
    · rintro ⟨hmsg, rid, hrid, hall⟩
      subst hmsg
      rw [hrid, adminCreate]
      cases hfind : adminFindById admins rid with
      | none => rfl
      | some ra =>
        have hrole : ra.role ≠ 0 := hall ra hfind
        simp [hrole]

theorem admin_create_gate_witness :
    adminCreate [] c10Dto none (fun p => p) "a1" =
      .ok ({ id := "a1", username := "newadmin", name := "New Admin",
             passwordHash := "pw123", role := 1 },
        [{ id := "a1", username := "newadmin", name := "New Admin",
           passwordHash := "pw123", role := 1 }]) :=
  (admin_create_gate [] c10Dto none (fun p => p) "a1").2.1 rfl

end AuthService
